import Mathlib

/-!
# Verification of the JNI bridge layer (`base/android/jni_android.h`)

A shallow embedding of the lazy symbol cache, thread-attachment manager,
runtime registry and fault (exception) bridge declared in
`src/base/android/jni_android.h`.  The repository ships only the header
(declarations plus their documentation comments); the function bodies are
modelled from the specification, faithful to its algorithm descriptions, and
marked `Modelled from the spec:` below.

Handles (`jclass`, `JNIEnv*`, `JavaVM*`) are modelled as natural numbers,
with `0` playing the role of the null handle where nullness matters.
-/

set_option autoImplicit false

namespace JniAndroid

/-! ## Fault bridge (`HasException`, `ClearException`, `CheckException`) -/

/-- The observable state of a thread's `JNIEnv`: whether a Java exception
(fault) is pending on it. -/
structure JNIEnvState where
  pendingException : Bool
  deriving DecidableEq, Repr

/-- Modelled from the spec: `HasException` — a non-destructive poll of the
pending-fault state of the provided `JNIEnv`.  (Body absent from `src/`;
only the declaration at `jni_android.h:156` is present.) -/
def HasException (env : JNIEnvState) : Bool :=
  env.pendingException

/-- Modelled from the spec: `ClearException` — if an exception is pending it
is cleared and `true` is returned; otherwise `false` is returned and the
state is untouched.  (Declaration at `jni_android.h:160`.) -/
def ClearException (env : JNIEnvState) : Bool × JNIEnvState :=
  if env.pendingException then (true, { pendingException := false })
  else (false, env)

/-- Outcome of an operation that may escalate to a process-fatal `CHECK`. -/
inductive FatalOr (α : Type) where
  | fatal : FatalOr α
  | ok : α → FatalOr α
  deriving DecidableEq, Repr

/-- Modelled from the spec: `CheckException` — calls the fatal `CHECK()`
macro iff an exception is pending; otherwise it is a no-op.
(Declaration at `jni_android.h:163`.) -/
def CheckException (env : JNIEnvState) : FatalOr JNIEnvState :=
  if env.pendingException then .fatal else .ok env

/-! ## Class resolution (`GetClass`) -/

/-- Modelled from the spec: `GetClass` — resolves `class_name` through the
current resolution root (abstracted as `findClass`, which returns `0` when
the class is unknown, as JNI `FindClass` returns null).  Triggers a fatal
assertion if the class could not be found; otherwise returns the resolved
handle.  (Declaration at `jni_android.h:114`.) -/
def GetClass (findClass : String → Nat) (class_name : String) : FatalOr Nat :=
  if findClass class_name = 0 then .fatal else .ok (findClass class_name)

/-- A concrete resolver for witnesses: knows one class, returns the null
handle for everything else. -/
def findClassDemo : String → Nat :=
  fun n => if n = "java/lang/String" then 7 else 0

/-! ## Thread attachment manager -/

/-- The attachment record of one thread: its `JNIEnv` handle and the visible
thread name registered with the runtime. -/
structure ThreadAttachment where
  env : Nat
  name : String
  deriving DecidableEq, Repr

/-- Process-wide attachment state: which thread ids are attached (with what
context and name), and a counter supplying fresh `JNIEnv` handles. -/
structure VMState where
  attached : Nat → Option ThreadAttachment
  nextEnv : Nat

/-- The default name the runtime assigns when a thread attaches without an
explicit name (the header calls it `"Thread-???"`). -/
def defaultThreadName : String := "Thread-???"

/-- Modelled from the spec: `AttachCurrentThread` — if the calling thread
`tid` already has a context it is returned unchanged; otherwise a fresh
context is created, attaching the thread with the runtime's default name.
(Declaration at `jni_android.h:82`.) -/
def AttachCurrentThread (tid : Nat) (s : VMState) : Nat × VMState :=
  match s.attached tid with
  | some a => (a.env, s)
  | none =>
      (s.nextEnv,
        { attached := fun t =>
            if t = tid then some ⟨s.nextEnv, defaultThreadName⟩ else s.attached t,
          nextEnv := s.nextEnv + 1 })

/-- Modelled from the spec: `AttachCurrentThreadWithName` — same as
`AttachCurrentThread` except that `thread_name` is applied only if this is
the first attach of the thread; an already-attached thread keeps its
existing name.  (Declaration at `jni_android.h:89`.) -/
def AttachCurrentThreadWithName (tid : Nat) (thread_name : String)
    (s : VMState) : Nat × VMState :=
  match s.attached tid with
  | some a => (a.env, s)
  | none =>
      (s.nextEnv,
        { attached := fun t =>
            if t = tid then some ⟨s.nextEnv, thread_name⟩ else s.attached t,
          nextEnv := s.nextEnv + 1 })

/-- A fresh process with no thread attached, for witnesses. -/
def vm0 : VMState := ⟨fun _ => none, 0⟩

/-! ## Lazy symbol cache (`LazyGetClass`, `MethodID::LazyGet`)

The algorithmic core: double-checked, memoized symbol resolution against a
caller-supplied atomic slot, under concurrent access.  The implementation is
absent from `src/` (only the declarations at `jni_android.h:123` and
`jni_android.h:148` with their comments are present), so the algorithm is
modelled from the spec as a small-step machine: each atomic action of the
protocol (acquire-read of the slot, resolve-and-wrap as a global reference,
compare-and-swap with failure handling) is one step, and two threads running
the algorithm on the same slot are interleaved by an arbitrary schedule.

`c` is the underlying class (or method) identity that `GetClass` resolves
the shared name to; each resolution wraps it in a fresh global reference. -/

/-- A foreign handle as held by a caller: the underlying symbol identity
together with the identity of the global reference wrapping it.  Two handles
from two concurrent resolutions of the same name share `classId` but have
distinct `refId`. -/
structure Handle where
  classId : Nat
  refId : Nat
  deriving DecidableEq, Repr

/-- Program counter of one thread executing `LazyGetClass` on the shared
slot: before the acquire-read, holding a freshly resolved global reference
just before its compare-and-swap, or finished with a return value. -/
inductive TPc where
  | start : TPc
  | haveRef : Handle → TPc
  | done : Handle → TPc
  deriving DecidableEq, Repr

/-- One thread of the lazy-cache machine: its program counter plus the
observable record of what its call did (did it resolve via `GetClass`, which
global reference it created, did it release its own redundant reference). -/
structure Thread where
  pc : TPc
  resolved : Bool
  created : Option Handle
  releasedOwn : Bool
  deriving DecidableEq, Repr

/-- The shared state of two threads calling `LazyGetClass` on the same
caller-supplied atomic slot: the slot (`none` models the zero sentinel), a
counter supplying fresh global-reference identities, the list of currently
live global references created by these calls, and the two threads. -/
structure LazySys where
  slot : Option Handle
  nextRef : Nat
  live : List Handle
  t1 : Thread
  t2 : Thread
  deriving DecidableEq, Repr

/-- Modelled from the spec: one atomic action of a thread running
`LazyGetClass` (body absent from `src/`).  From `start`: acquire-read the
slot — if non-empty return the cached handle immediately (fast path, no
resolution); if empty, resolve via `GetClass` and wrap the result as a fresh
global reference.  From `haveRef h`: compare-and-swap the slot from empty to
`h` — on success publish `h` and return it; on failure release the own
redundant reference and return the value the other thread published.  A
finished thread does nothing. -/
def threadStep (c : Nat) (slot : Option Handle) (nextRef : Nat)
    (live : List Handle) (t : Thread) :
    Thread × Option Handle × Nat × List Handle :=
  match t.pc with
  | .start =>
      match slot with
      | some v => ({ t with pc := .done v }, slot, nextRef, live)
      | none =>
          let h : Handle := ⟨c, nextRef⟩
          ({ t with pc := .haveRef h, resolved := true, created := some h },
            none, nextRef + 1, h :: live)
  | .haveRef h =>
      match slot with
      | none => ({ t with pc := .done h }, some h, nextRef, live)
      | some v =>
          ({ t with pc := .done v, releasedOwn := true },
            some v, nextRef, live.erase h)
  | .done _ => (t, slot, nextRef, live)

/-- One step of the two-thread system: the scheduled thread (`true` for the
first, `false` for the second) performs its next atomic action. -/
def step (c : Nat) (who : Bool) (s : LazySys) : LazySys :=
  if who then
    match threadStep c s.slot s.nextRef s.live s.t1 with
    | (t, slot, nextRef, live) =>
        { slot := slot, nextRef := nextRef, live := live, t1 := t, t2 := s.t2 }
  else
    match threadStep c s.slot s.nextRef s.live s.t2 with
    | (t, slot, nextRef, live) =>
        { slot := slot, nextRef := nextRef, live := live, t1 := s.t1, t2 := t }

/-- Modelled from the spec: `MethodID::LazyGet` follows the identical
memoization algorithm as `LazyGetClass` (the static/instance discriminator
is a compile-time choice affecting only which foreign lookup primitive
resolves the symbol), so its step is the same machine step on the resolved
symbol identity. -/
def MethodID.LazyGetStep : Nat → Bool → LazySys → LazySys := step

/-- Run the two-thread system under a schedule. -/
def run (c : Nat) (sched : List Bool) (s : LazySys) : LazySys :=
  sched.foldl (fun s who => step c who s) s

/-- A thread that has not yet started its call. -/
def thI : Thread := ⟨.start, false, none, false⟩

/-- A thread that resolved the symbol and holds global reference `h`,
about to attempt its compare-and-swap. -/
def thR (h : Handle) : Thread := ⟨.haveRef h, true, some h, false⟩

/-- A thread whose compare-and-swap succeeded: it published and returned
its own reference `h`. -/
def thW (h : Handle) : Thread := ⟨.done h, true, some h, false⟩

/-- A thread whose compare-and-swap failed: it created `h`, released it,
and returned the published value `v`. -/
def thL (v h : Handle) : Thread := ⟨.done v, true, some h, true⟩

/-- A thread that took the fast path: it returned the cached value `v`
without resolving. -/
def thF (v : Handle) : Thread := ⟨.done v, false, none, false⟩

/-- The initial configuration of the concurrency scenario: empty slot, no
live references, both threads about to call `LazyGetClass`. -/
def initSys : LazySys := ⟨none, 0, [], thI, thI⟩

/-- The (finite) set of states reachable from `initSys` under any
interleaving of the two threads, enumerated explicitly. -/
def reachableStates (c : Nat) : List LazySys :=
  let a : Handle := ⟨c, 0⟩
  let b : Handle := ⟨c, 1⟩
  [ ⟨none, 0, [], thI, thI⟩,
    ⟨none, 1, [a], thR a, thI⟩,
    ⟨none, 1, [a], thI, thR a⟩,
    ⟨some a, 1, [a], thW a, thI⟩,
    ⟨some a, 1, [a], thI, thW a⟩,
    ⟨some a, 1, [a], thW a, thF a⟩,
    ⟨some a, 1, [a], thF a, thW a⟩,
    ⟨none, 2, [b, a], thR a, thR b⟩,
    ⟨none, 2, [b, a], thR b, thR a⟩,
    ⟨some a, 2, [b, a], thW a, thR b⟩,
    ⟨some b, 2, [b, a], thR a, thW b⟩,
    ⟨some a, 2, [b, a], thR b, thW a⟩,
    ⟨some b, 2, [b, a], thW b, thR a⟩,
    ⟨some a, 2, [a], thW a, thL a b⟩,
    ⟨some b, 2, [b], thL b a, thW b⟩,
    ⟨some a, 2, [a], thL a b, thW a⟩,
    ⟨some b, 2, [b], thW b, thL b a⟩ ]

/-- The per-call contract of `LazyGetClass` as observed on one thread of the
machine: a finished call returned exactly the final slot contents; a call
that never resolved (fast path) created no reference and released nothing; a
finished call that kept its created reference returned it and published it
into the slot (compare-and-swap success); a call that released its own
reference returned a different handle — the one another thread published —
and its own redundant global reference is no longer live. -/
def callContract (s : LazySys) (t : Thread) : Prop :=
  (∀ r, t.pc = .done r → s.slot = some r) ∧
  (∀ r, t.pc = .done r → t.resolved = false →
      t.created = none ∧ t.releasedOwn = false) ∧
  (∀ r h, t.pc = .done r → t.created = some h → t.releasedOwn = false →
      r = h ∧ s.slot = some h) ∧
  (∀ r h, t.releasedOwn = true → t.pc = .done r → t.created = some h →
      r ≠ h ∧ h ∉ s.live)

/-! ## Runtime context registry (`InitVM`, `IsVMInitialized`) -/

/-- The process-wide runtime entry point slot: `none` before `InitVM`. -/
structure VMGlobal where
  g_jvm : Option Nat
  deriving DecidableEq, Repr

/-- Modelled from the spec: `InitVM` — stores the process-wide JVM handle.
Calling it a second time with a different value is a fatal error; a second
call with the same value is a no-op.  (Declaration at `jni_android.h:95`.) -/
def InitVM (vm : Nat) (g : VMGlobal) : FatalOr VMGlobal :=
  match g.g_jvm with
  | none => .ok { g_jvm := some vm }
  | some w => if w = vm then .ok g else .fatal

/-- Modelled from the spec: `IsVMInitialized` — whether the global JVM has
been initialized.  (Declaration at `jni_android.h:98`.) -/
def IsVMInitialized (g : VMGlobal) : Bool :=
  g.g_jvm.isSome

/-! ## Reference lifetimes at the public interface

`GetClass` returns a `ScopedJavaLocalRef<jclass>` (`jni_android.h:114`) —
a call-scope local reference released automatically at scope exit — while
`LazyGetClass` returns a raw `jclass` documented as a global reference
(`jni_android.h:117`).  The table below models the two lifetime modes. -/

/-- The live foreign references of one thread: the current call scope's
local references and the process-lifetime global references. -/
structure RefTable where
  locals : List Nat
  globals : List Nat
  deriving DecidableEq, Repr

/-- A handle is live while some local or global reference refers to it. -/
def isLive (rt : RefTable) (h : Nat) : Prop :=
  h ∈ rt.locals ∨ h ∈ rt.globals

instance (rt : RefTable) (h : Nat) : Decidable (isLive rt h) := by
  unfold isLive; infer_instance

/-- Modelled from the spec: exiting the call scope releases every local
(call-scope) reference automatically — the `ScopedJavaLocalRef` destructor
semantics — while global references persist. -/
def scopeExit (rt : RefTable) : RefTable :=
  { rt with locals := [] }

/-- `GetClass` returns a `ScopedJavaLocalRef<jclass>` (`jni_android.h:114`):
its result handle is registered as a local, call-scope reference. -/
def GetClassRef (h : Nat) (rt : RefTable) : RefTable :=
  { rt with locals := h :: rt.locals }

/-- `LazyGetClass` returns a raw `jclass` that is a global, process-lifetime
reference (`jni_android.h:117`): its result handle is registered as a global
reference whose release is the caller's responsibility. -/
def LazyGetClassRef (h : Nat) (rt : RefTable) : RefTable :=
  { rt with globals := h :: rt.globals }

/-! # Theorems -/

/-! ## Reachability of the lazy-cache machine -/

/-- Every step from a reachable state lands in a reachable state. -/
theorem step_mem_reachable (c : Nat) (who : Bool) {s : LazySys}
    (hs : s ∈ reachableStates c) : step c who s ∈ reachableStates c := by
  simp only [reachableStates, List.mem_cons, List.not_mem_nil, or_false] at hs ⊢
  rcases hs with rfl|rfl|rfl|rfl|rfl|rfl|rfl|rfl|rfl|rfl|rfl|rfl|rfl|rfl|rfl|rfl|rfl <;>
    cases who <;>
    simp [step, threadStep, thI, thR, thW, thL, thF, List.erase_cons]

/-- Any run from a reachable state stays reachable. -/
theorem run_mem_reachable (c : Nat) (sched : List Bool) :
    ∀ s ∈ reachableStates c, run c sched s ∈ reachableStates c := by
  induction sched with
  | nil => intro s hs; exact hs
  | cons who rest ih =>
      intro s hs
      exact ih _ (step_mem_reachable c who hs)

/-- The initial configuration is reachable. -/
theorem initSys_mem_reachable (c : Nat) : initSys ∈ reachableStates c := by
  simp [reachableStates, initSys]

/-- In every reachable state, both threads satisfy the per-call contract. -/
theorem callContract_of_reachable (c : Nat) {s : LazySys}
    (hs : s ∈ reachableStates c) : callContract s s.t1 ∧ callContract s s.t2 := by
  simp only [reachableStates, List.mem_cons, List.not_mem_nil, or_false] at hs
  rcases hs with rfl|rfl|rfl|rfl|rfl|rfl|rfl|rfl|rfl|rfl|rfl|rfl|rfl|rfl|rfl|rfl|rfl <;>
    simp [callContract, thI, thR, thW, thL, thF]

/-- In every reachable state in which both threads finished, both returned
handles wrap the same underlying class, the slot holds both return values,
and exactly one created global reference is still live — the slot's. -/
theorem concurrent_post_of_reachable (c : Nat) {s : LazySys}
    (hs : s ∈ reachableStates c) {r1 r2 : Handle}
    (h1 : s.t1.pc = .done r1) (h2 : s.t2.pc = .done r2) :
    r1.classId = r2.classId ∧ s.slot = some r1 ∧ s.slot = some r2 ∧
      s.live = [r1] := by
  simp only [reachableStates, List.mem_cons, List.not_mem_nil, or_false] at hs
  rcases hs with rfl|rfl|rfl|rfl|rfl|rfl|rfl|rfl|rfl|rfl|rfl|rfl|rfl|rfl|rfl|rfl|rfl <;>
    simp_all [thI, thR, thW, thL, thF]

/-- Preservation of a published slot by a single thread action: once the
slot holds a value, no action of the algorithm writes anything else. -/
theorem threadStep_slot_some (c : Nat) (v : Handle) (n : Nat)
    (live : List Handle) (t : Thread) :
    (threadStep c (some v) n live t).2.1 = some v := by
  cases hpc : t.pc <;> simp [threadStep, hpc]

/-- Preservation of a published slot by a system step. -/
theorem step_slot_some (c : Nat) (who : Bool) (s : LazySys) (v : Handle)
    (h : s.slot = some v) : (step c who s).slot = some v := by
  cases who <;> simp only [step, if_true, if_false, Bool.false_eq_true]
  · have hv := threadStep_slot_some c v s.nextRef s.live s.t2
    rw [← h] at hv
    rcases hx : threadStep c s.slot s.nextRef s.live s.t2 with ⟨t, sl, n, l⟩
    rw [hx] at hv
    simp_all
  · have hv := threadStep_slot_some c v s.nextRef s.live s.t1
    rw [← h] at hv
    rcases hx : threadStep c s.slot s.nextRef s.live s.t1 with ⟨t, sl, n, l⟩
    rw [hx] at hv
    simp_all

/-- Preservation of a published slot by a whole run. -/
theorem run_slot_some (c : Nat) (sched : List Bool) :
    ∀ (s : LazySys) (v : Handle), s.slot = some v →
      (run c sched s).slot = some v := by
  induction sched with
  | nil => intro s v h; exact h
  | cons who rest ih =>
      intro s v h
      exact ih _ v (step_slot_some c who s v h)

/-! ## Claim theorems -/

/-- Claim C1: for every call of `LazyGetClass` — modelled as either thread
of the machine, after any schedule from the two-thread initial state — if
the slot was non-empty the call returned the cached handle without any
resolution (it created no reference and released nothing); if the slot was
empty it resolved, wrapped the result as a global reference, and either its
compare-and-swap published that reference (in which case it returned it) or
the swap failed and it released its own redundant reference and returned the
value the other thread published; in every case the returned value equals
the final slot contents. -/
theorem LazyGetClass_call_correct (c : Nat) (sched : List Bool) :
    callContract (run c sched initSys) (run c sched initSys).t1 ∧
    callContract (run c sched initSys) (run c sched initSys).t2 :=
  callContract_of_reachable c
    (run_mem_reachable c sched initSys (initSys_mem_reachable c))

/-- Witness for C1: a concrete schedule in which the first thread resolves
and publishes and the second takes the fast path. -/
theorem LazyGetClass_call_correct_witness :
    callContract (run 5 [true, true, false] initSys)
      (run 5 [true, true, false] initSys).t1 ∧
    callContract (run 5 [true, true, false] initSys)
      (run 5 [true, true, false] initSys).t2 :=
  LazyGetClass_call_correct 5 [true, true, false]

/-- Claim C2: if two threads call `LazyGetClass` concurrently on the same
initially-empty slot with the same class name, then under every schedule
after which both calls returned, the two returned handles wrap the same
underlying class, the slot is non-empty and holds both return values, and
exactly one global reference among the two resolutions remains live — the
one held through the slot (the loser's reference has been released). -/
theorem LazyGetClass_concurrent_converges (c : Nat) (sched : List Bool)
    (r1 r2 : Handle)
    (h1 : (run c sched initSys).t1.pc = .done r1)
    (h2 : (run c sched initSys).t2.pc = .done r2) :
    r1.classId = r2.classId ∧
    (run c sched initSys).slot = some r1 ∧
    (run c sched initSys).slot = some r2 ∧
    (run c sched initSys).live = [r1] :=
  concurrent_post_of_reachable c
    (run_mem_reachable c sched initSys (initSys_mem_reachable c)) h1 h2

/-- Witness for C2: a concrete contended schedule — both threads resolve,
the first wins the compare-and-swap, the second releases its redundant
reference and returns the published handle. -/
theorem LazyGetClass_concurrent_converges_witness :
    (run 5 [true, false, true, false] initSys).t1.pc = .done ⟨5, 0⟩ ∧
    (run 5 [true, false, true, false] initSys).t2.pc = .done ⟨5, 0⟩ ∧
    ((⟨5, 0⟩ : Handle).classId = (⟨5, 0⟩ : Handle).classId ∧
      (run 5 [true, false, true, false] initSys).slot = some ⟨5, 0⟩ ∧
      (run 5 [true, false, true, false] initSys).slot = some ⟨5, 0⟩ ∧
      (run 5 [true, false, true, false] initSys).live = [⟨5, 0⟩]) :=
  ⟨by decide, by decide,
    LazyGetClass_concurrent_converges 5 [true, false, true, false]
      ⟨5, 0⟩ ⟨5, 0⟩ (by decide) (by decide)⟩

/-- Claim C3: once the cached slot has been published with a non-empty
value, no subsequent action of `LazyGetClass` or `MethodID::LazyGet` — a
single step, or any whole schedule of further steps — modifies, replaces or
invalidates it, and every later call that starts against the published slot
returns the identical handle in one step, unchanged otherwise. -/
theorem lazy_slot_immutable_once_published (c : Nat) (v : Handle) :
    (∀ (who : Bool) (s : LazySys), s.slot = some v →
        (step c who s).slot = some v) ∧
    (∀ (who : Bool) (s : LazySys), s.slot = some v →
        (MethodID.LazyGetStep c who s).slot = some v) ∧
    (∀ (sched : List Bool) (s : LazySys), s.slot = some v →
        (run c sched s).slot = some v) ∧
    (∀ (n : Nat) (live : List Handle) (t : Thread), t.pc = .start →
        threadStep c (some v) n live t =
          ({ t with pc := .done v }, some v, n, live)) :=
  ⟨fun who s h => step_slot_some c who s v h,
   fun who s h => step_slot_some c who s v h,
   fun sched s h => run_slot_some c sched s v h,
   fun n live t ht => by simp [threadStep, ht]⟩

/-- Witness for C3: a published slot survives a step and a two-step run,
and a later call returns the identical cached handle. -/
theorem lazy_slot_immutable_once_published_witness :
    (step 5 true ⟨some ⟨5, 0⟩, 1, [⟨5, 0⟩], thI, thI⟩).slot = some ⟨5, 0⟩ ∧
    (run 5 [true, false] ⟨some ⟨5, 0⟩, 1, [⟨5, 0⟩], thI, thI⟩).slot
      = some ⟨5, 0⟩ ∧
    threadStep 5 (some ⟨5, 0⟩) 1 [⟨5, 0⟩] thI
      = ({ thI with pc := .done ⟨5, 0⟩ }, some ⟨5, 0⟩, 1, [⟨5, 0⟩]) :=
  ⟨(lazy_slot_immutable_once_published 5 ⟨5, 0⟩).1 true _ rfl,
   (lazy_slot_immutable_once_published 5 ⟨5, 0⟩).2.2.1 [true, false] _ rfl,
   (lazy_slot_immutable_once_published 5 ⟨5, 0⟩).2.2.2 1 [⟨5, 0⟩] thI rfl⟩

/-- Claim C4: `AttachCurrentThread` is idempotent per thread — a second
call on the same thread returns the same `JNIEnv` and leaves the whole
attachment state (including the thread's name) unchanged, and a call on an
already-attached thread returns the existing context with no state
change. -/
theorem AttachCurrentThread_idempotent (tid : Nat) (s : VMState) :
    (AttachCurrentThread tid (AttachCurrentThread tid s).2).1
      = (AttachCurrentThread tid s).1 ∧
    (AttachCurrentThread tid (AttachCurrentThread tid s).2).2
      = (AttachCurrentThread tid s).2 ∧
    (∀ a, s.attached tid = some a → AttachCurrentThread tid s = (a.env, s)) := by
  cases h : s.attached tid with
  | some a => simp [AttachCurrentThread, h]
  | none => simp [AttachCurrentThread, h]

/-- Witness for C4: both conclusions at a concrete fresh process, with the
already-attached clause discharged after one attach. -/
theorem AttachCurrentThread_idempotent_witness :
    (AttachCurrentThread 0 (AttachCurrentThread 0 vm0).2).1
      = (AttachCurrentThread 0 vm0).1 ∧
    AttachCurrentThread 0 (AttachCurrentThread 0 vm0).2
      = ((⟨0, defaultThreadName⟩ : ThreadAttachment).env,
          (AttachCurrentThread 0 vm0).2) :=
  ⟨(AttachCurrentThread_idempotent 0 vm0).1,
   (AttachCurrentThread_idempotent 0 (AttachCurrentThread 0 vm0).2).2.2
     ⟨0, defaultThreadName⟩ rfl⟩

/-- Claim C5: `AttachCurrentThreadWithName` applies the given name only on
the first attach — attaching with one name and then with any other name on
the same thread preserves the first name (the second call changes nothing),
and on an already-attached thread the call leaves the state unchanged. -/
theorem AttachCurrentThreadWithName_first_name_wins (tid : Nat)
    (n1 n2 : String) (s : VMState) (h : s.attached tid = none) :
    ((AttachCurrentThreadWithName tid n2
        ((AttachCurrentThreadWithName tid n1 s).2)).2).attached tid
      = some ⟨s.nextEnv, n1⟩ ∧
    (AttachCurrentThreadWithName tid n2
        ((AttachCurrentThreadWithName tid n1 s).2)).2
      = (AttachCurrentThreadWithName tid n1 s).2 ∧
    (∀ (t : VMState) (a : ThreadAttachment), t.attached tid = some a →
        (AttachCurrentThreadWithName tid n2 t).2 = t) := by
  refine ⟨?_, ?_, ?_⟩
  · simp [AttachCurrentThreadWithName, h]
  · simp [AttachCurrentThreadWithName, h]
  · intro t a ha
    simp [AttachCurrentThreadWithName, ha]

/-- Witness for C5: attaching with `"worker-1"` and then `"worker-2"` on
the same fresh thread leaves `"worker-1"` as the visible name. -/
theorem AttachCurrentThreadWithName_first_name_wins_witness :
    vm0.attached 0 = none ∧
    ((AttachCurrentThreadWithName 0 "worker-2"
        ((AttachCurrentThreadWithName 0 "worker-1" vm0).2)).2).attached 0
      = some ⟨0, "worker-1"⟩ :=
  ⟨rfl,
   (AttachCurrentThreadWithName_first_name_wins 0 "worker-1" "worker-2"
      vm0 rfl).1⟩

/-- Claim C6: `ClearException` returns `true` iff a fault was pending; when
it returns `true` the fault has been cleared, so `HasException` on the
resulting context returns `false`; when it returns `false` the state is
unchanged. -/
theorem ClearException_spec (env : JNIEnvState) :
    ((ClearException env).1 = true ↔ env.pendingException = true) ∧
    ((ClearException env).1 = true →
        HasException (ClearException env).2 = false) ∧
    ((ClearException env).1 = false → (ClearException env).2 = env) := by
  cases h : env.pendingException <;>
    simp [ClearException, HasException, h]

/-- Witness for C6: clearing a pending exception makes `HasException`
report `false`. -/
theorem ClearException_spec_witness :
    (ClearException ⟨true⟩).1 = true ∧
    HasException (ClearException ⟨true⟩).2 = false :=
  ⟨by decide, (ClearException_spec ⟨true⟩).2.1 (by decide)⟩

/-- Claim C7: `CheckException` escalates to a process-fatal `CHECK` iff an
exception is pending; with no pending exception it is a no-op that returns
with the context unchanged. -/
theorem CheckException_spec (env : JNIEnvState) :
    (CheckException env = .fatal ↔ env.pendingException = true) ∧
    (env.pendingException = false → CheckException env = .ok env) := by
  cases h : env.pendingException <;> simp [CheckException, h]

/-- Witness for C7: no pending exception, no termination. -/
theorem CheckException_spec_witness :
    (⟨false⟩ : JNIEnvState).pendingException = false ∧
    CheckException ⟨false⟩ = .ok ⟨false⟩ :=
  ⟨rfl, (CheckException_spec ⟨false⟩).2 rfl⟩

/-- Claim C8: `GetClass` never returns a null handle — every handle it
returns is the non-null resolved class, and when the class cannot be
resolved it triggers the fatal assertion instead of returning. -/
theorem GetClass_never_null (findClass : String → Nat) (class_name : String) :
    (∀ h, GetClass findClass class_name = .ok h →
        h ≠ 0 ∧ h = findClass class_name) ∧
    (findClass class_name = 0 → GetClass findClass class_name = .fatal) := by
  by_cases h0 : findClass class_name = 0 <;> simp [GetClass, h0]

/-- Witness for C8: the demo resolver returns a valid handle for the known
class and escalates fatally for an unknown one. -/
theorem GetClass_never_null_witness :
    ((7 : Nat) ≠ 0 ∧ (7 : Nat) = findClassDemo "java/lang/String") ∧
    GetClass findClassDemo "x" = .fatal :=
  ⟨(GetClass_never_null findClassDemo "java/lang/String").1 7 (by decide),
   (GetClass_never_null findClassDemo "x").2 (by decide)⟩

/-- Claim C9: `InitVM` stores the process-wide entry point exactly once —
from the uninitialized state it stores the value, a second call with the
same value is a no-op, a second call with a different value is fatal, and
after any successful call `IsVMInitialized` returns `true`. -/
theorem InitVM_once_semantics (v w : Nat) (g : VMGlobal) :
    (g.g_jvm = none → InitVM v g = .ok ⟨some v⟩) ∧
    (InitVM v ⟨some v⟩ = .ok ⟨some v⟩) ∧
    (w ≠ v → InitVM v ⟨some w⟩ = .fatal) ∧
    (∀ g', InitVM v g = .ok g' → IsVMInitialized g' = true) := by
  refine ⟨?_, ?_, ?_, ?_⟩
  · intro h; simp [InitVM, h]
  · simp [InitVM]
  · intro h; simp [InitVM, h]
  · intro g' h
    cases hg : g.g_jvm with
    | none =>
        simp only [InitVM, hg, FatalOr.ok.injEq] at h
        subst h
        simp [IsVMInitialized]
    | some u =>
        by_cases hu : u = v
        · simp only [InitVM, hg, if_pos hu, FatalOr.ok.injEq] at h
          subst h
          simp [IsVMInitialized, hg]
        · simp [InitVM, hg, if_neg hu] at h

/-- Witness for C9: the full once-only lifecycle at concrete values. -/
theorem InitVM_once_semantics_witness :
    InitVM 3 ⟨none⟩ = .ok ⟨some 3⟩ ∧
    InitVM 3 ⟨some 3⟩ = .ok ⟨some 3⟩ ∧
    InitVM 3 ⟨some 4⟩ = .fatal ∧
    IsVMInitialized ⟨some 3⟩ = true :=
  ⟨(InitVM_once_semantics 3 4 ⟨none⟩).1 rfl,
   (InitVM_once_semantics 3 4 ⟨none⟩).2.1,
   (InitVM_once_semantics 3 4 ⟨none⟩).2.2.1 (by decide),
   (InitVM_once_semantics 3 4 ⟨none⟩).2.2.2 ⟨some 3⟩
     ((InitVM_once_semantics 3 4 ⟨none⟩).1 rfl)⟩

/-- Claim C10: `GetClass` and `LazyGetClass` return references of different
lifetimes — the `GetClass` result is a local, call-scope reference that is
registered in the scope's local table and is dead after scope exit (so it
must not be stored across calls), while the `LazyGetClass` result is a
global, process-lifetime reference that survives scope exit (so it may be
stored). -/
theorem GetClass_local_LazyGetClass_global (h g : Nat) (rt : RefTable) :
    h ∈ (GetClassRef h rt).locals ∧
    g ∈ (LazyGetClassRef g rt).globals ∧
    (h ∉ rt.globals → ¬ isLive (scopeExit (GetClassRef h rt)) h) ∧
    isLive (scopeExit (LazyGetClassRef g rt)) g := by
  refine ⟨?_, ?_, ?_, ?_⟩
  · simp [GetClassRef]
  · simp [LazyGetClassRef]
  · intro hg
    simp [GetClassRef, scopeExit, isLive, hg]
  · simp [LazyGetClassRef, scopeExit, isLive]

/-- Witness for C10: in an empty scope, a `GetClass` result is dead after
scope exit while a `LazyGetClass` result is still live. -/
theorem GetClass_local_LazyGetClass_global_witness :
    (1 : Nat) ∉ (⟨[], []⟩ : RefTable).globals ∧
    ¬ isLive (scopeExit (GetClassRef 1 ⟨[], []⟩)) 1 ∧
    isLive (scopeExit (LazyGetClassRef 2 ⟨[], []⟩)) 2 :=
  ⟨by decide,
   (GetClass_local_LazyGetClass_global 1 2 ⟨[], []⟩).2.2.1 (by decide),
   (GetClass_local_LazyGetClass_global 1 2 ⟨[], []⟩).2.2.2⟩

end JniAndroid
